import Mathlib

/- Verification of the prompt-enhancer service: a shallow embedding of the
   request pipeline of `main.py` (rate limiter, deterministic enhancer,
   external model caller with candidate rotation and retry, and the
   `POST /enhance` orchestrator), together with spec-modelled definitions
   for the mode classifier component that the specification describes but
   that is absent from the source files. -/

/-- Python `str.strip`: drop whitespace from both ends, modelled on the
character list of the string. -/
def pyStrip (s : String) : String :=
  String.mk (((s.data.dropWhile Char.isWhitespace).reverse.dropWhile Char.isWhitespace).reverse)

/-- Python `str.lower` (ASCII case folding, which covers every comparison the
code performs). -/
def pyLower (s : String) : String :=
  String.mk (s.data.map Char.toLower)

/-- Python slicing `s[:n]` on strings, by characters. -/
def pyTake (s : String) (n : Nat) : String :=
  String.mk (s.data.take n)

/-- Python `sep.join(xs)`. -/
def pyJoin (sep : String) : List String → String
  | [] => ""
  | [s] => s
  | s :: t :: rest => s ++ sep ++ pyJoin sep (t :: rest)

/-- Does `need` occur at the start of `hay`? -/
def startsWithSeq : List Char → List Char → Bool
  | _, [] => true
  | [], _ :: _ => false
  | a :: as, b :: bs => a == b && startsWithSeq as bs

/-- Does `need` occur anywhere inside the second list? -/
def containsSeq (need : List Char) : List Char → Bool
  | [] => need.isEmpty
  | c :: rest => startsWithSeq (c :: rest) need || containsSeq need rest

/-- Substring containment on strings. -/
def strContains (hay pat : String) : Bool :=
  containsSeq pat.data hay.data

/-- The body of `rate_limited` (main.py lines 80-92) for one client bucket:
purge entries older than the window, reject when the remainder has reached
the maximum (storing only the purged bucket), otherwise record the current
timestamp.  Returns the decision together with the stored bucket. -/
def checkRate (maxReq : Nat) (window now : ℚ) (bucket : List ℚ) : Bool × List ℚ :=
  let purged := bucket.filter (fun t => now - t < window)
  if maxReq ≤ purged.length then (true, purged) else (false, purged ++ [now])

/-- Iterated rate-limit checks for a sequence of request timestamps from the
same client, threading the bucket. -/
def runRate (maxReq : Nat) (window : ℚ) : List ℚ → List ℚ → List Bool
  | [], _ => []
  | t :: ts, bucket =>
    let r := checkRate maxReq window t bucket
    r.1 :: runRate maxReq window ts r.2

/-- The `mode_hints` table of `deterministic_enhance` (main.py lines 100-104)
together with the `.get` default, which is the "analytical" entry. -/
def mode_hint (mode : String) : String :=
  if mode = "analytical" then "You are a business/finance analyst. Provide structured reasoning, assumptions, risks, and a decision rubric."
  else if mode = "technical" then "You are a senior software engineer. Provide step-by-step instructions, examples, edge cases, and complexity notes."
  else if mode = "creative" then "You are a creative editor. Provide voice, hook, narrative structure, and audience focus."
  else "You are a business/finance analyst. Provide structured reasoning, assumptions, risks, and a decision rubric."

/-- The `tone_hints` table of `deterministic_enhance` (main.py lines 105-111)
together with the `.get` default, which is the "concise" entry. -/
def tone_hint (tone : String) : String :=
  if tone = "concise" then "Short, direct sentences. No filler."
  else if tone = "formal" then "Professional, precise, no slang."
  else if tone = "friendly" then "Warm, encouraging, and approachable."
  else if tone = "persuasive" then "Benefit-led framing with a soft CTA."
  else if tone = "neutral" then "Balanced, objective tone."
  else "Short, direct sentences. No filler."

/-- Membership in the regex character class of ASCII letters, digits and the
hyphen, used by the naive entity extraction (main.py line 117). -/
def isEntityChar (c : Char) : Bool :=
  c.isAlpha || c.isDigit || c == '-'

/-- Scanner behind `re.findall` with a greedy run of the entity class: splits
the text into maximal runs of entity characters; `cur` is the current run,
reversed. -/
def tokensAux (cur : List Char) : List Char → List (List Char)
  | [] => if cur.isEmpty then [] else [cur.reverse]
  | c :: rest =>
    if isEntityChar c then tokensAux (c :: cur) rest
    else if cur.isEmpty then tokensAux [] rest
    else cur.reverse :: tokensAux [] rest

/-- Maximal runs of entity characters in a string. -/
def tokensOf (s : String) : List (List Char) := tokensAux [] s.data

/-- `sorted(set(toks))` of the naive entity extraction: the distinct tokens of
length at least 3, sorted lexicographically. -/
def entityList (raw : String) : List String :=
  List.insertionSort (fun a b => a ≤ b)
    (((tokensOf raw).filter (fun t => 3 ≤ t.length)).map (fun t => String.mk t)).dedup

/-- The entity string `", ".join(sorted(set(toks)))[:300] or "N/A"` of
`deterministic_enhance` (main.py lines 117-118). -/
def ents (raw : String) : String :=
  let joined := pyTake (pyJoin ", " (entityList raw)) 300
  if joined = "" then "N/A" else joined

/-- Everything of the enhanced document after the role sentence (the rest of
the f-string template of main.py lines 120-145). -/
def enhancedTail (raw tone th e : String) : String :=
  "\n\n# Task\nWrite a clear, structured response that directly fulfills the user's intent.\n\n# User Intent (verbatim)\n\"\"\"" ++ (raw ++ ("\"\"\"\n\n# Constraints\n- Avoid hallucinations; if uncertain, explicitly state assumptions and ask up to 2 clarifying questions.\n- Keep within 250–400 words unless code or calculations are essential.\n\n# Tone\n- " ++ (tone ++ (". " ++ (th ++ ("\n\n# Output Format\n- Use headings and bullet points when helpful.\n- Conclude with a brief checklist/summary.\n\n# Quality Checks\n- Provide factual care; show formulas, pseudocode, or steps when relevant.\n\n# Context Hints\n- Entities detected: " ++ (e ++ "\n")))))))

/-- The complete f-string template of `deterministic_enhance`
(main.py lines 120-145). -/
def mkEnhanced (mh raw tone th e : String) : String :=
  "# Role\n" ++ (mh ++ enhancedTail raw tone th e)

/-- The JSON object the service returns on success. -/
structure EnhanceResult where
  enhanced : String
  improvements : List String
  model_used : String
  note : Option String := none
deriving DecidableEq

/-- `deterministic_enhance` (main.py lines 97-153). -/
def deterministic_enhance (raw0 mode tone : String) : EnhanceResult :=
  let raw := pyStrip raw0
  { enhanced := mkEnhanced (mode_hint mode) raw tone (tone_hint tone) (ents raw)
    improvements :=
      [ "Mode preset applied: " ++ mode
      , "Tone guidance applied: " ++ tone
      , "Added structure: Role, Task, Intent, Constraints, Tone, Output, Checks"
      , "Added anti-hallucination guidance & clarifying-question allowance"
      , "Included naive entity/context hints" ]
    model_used := "deterministic-fallback" }

/-- Result of pushing the message content of a 200 response through
`json.loads` and the brace-scan fallback: `isEmptyObj` models Python dict
falsiness (`not obj`), `enhanced` is the value at key "enhanced" when that
key is present. -/
structure ParsedObj where
  isEmptyObj : Bool
  enhanced : Option String
  improvements : List String := []
deriving DecidableEq

/-- Abstract outcome of one HTTP attempt against one candidate model: a 200
whose content parsed to `obj` (`none` when both the strict parse and the
brace-scan fallback fail or do not yield an object), a non-200 status with
its body text, or a raised transport error. -/
inductive Outcome where
  | ok200 (obj : Option ParsedObj)
  | status (code : Nat) (text : String)
  | exn (msg : String)
deriving DecidableEq

/-- The fixed backoff schedule `RETRY_BACKOFFS` of main.py line 31, seconds. -/
def RETRY_BACKOFFS : List ℚ := [1/2, 1, 2]

/-- Attempt indices for one candidate: the loop over `[0.0] + RETRY_BACKOFFS`
makes 4 attempts per candidate. -/
def ATTEMPTS : List Nat := List.range (1 + RETRY_BACKOFFS.length)

/-- The inner retry loop of `openrouter_enhance` for a single candidate
(main.py lines 201-236): every attempt either returns a valid object, or
records a message in `last_error` and continues with the next attempt of the
same candidate; exhausting the attempts yields the final `last_error`. -/
def runCandidate (respond : Nat → Outcome) (lastErr : Option String) :
    List Nat → Except (Option String) ParsedObj
  | [] => .error lastErr
  | a :: rest =>
    match respond a with
    | .ok200 none =>
      runCandidate respond (some "Non-JSON or invalid JSON from model") rest
    | .ok200 (some po) =>
      if po.isEmptyObj || po.enhanced.isNone then
        runCandidate respond (some "Non-JSON or invalid JSON from model") rest
      else .ok po
    | .status code text =>
      runCandidate respond (some (toString code ++ " - " ++ pyTake text 200)) rest
    | .exn msg => runCandidate respond (some msg) rest

/-- The candidate-rotation loop of `openrouter_enhance`
(main.py lines 192-237), threading `last_error` across candidates. -/
def rotateModels (respond : String → Nat → Outcome) (lastErr : Option String) :
    List String → Except (Option String) (ParsedObj × String)
  | [] => .error lastErr
  | m :: ms =>
    match runCandidate (respond m) lastErr ATTEMPTS with
    | .ok po => .ok (po, m)
    | .error e => rotateModels respond e ms

/-- The returned object after `obj["model_used"] = model`. -/
def toResult (po : ParsedObj) (model : String) : EnhanceResult :=
  { enhanced := po.enhanced.getD "", improvements := po.improvements, model_used := model }

/-- `openrouter_enhance` (main.py lines 158-237) with the network abstracted
as `respond model attempt`: raises immediately when no API key is configured,
otherwise rotates through the candidates and raises carrying the last error
when every candidate fails. -/
def openrouter_enhance (hasKey : Bool) (models : List String)
    (respond : String → Nat → Outcome) : Except String EnhanceResult :=
  if hasKey then
    match rotateModels respond none models with
    | .ok (po, m) => .ok (toResult po m)
    | .error e => .error ("All model attempts failed. Last error: " ++ e.getD "None")
  else .error "OPENROUTER_API_KEY not configured"

/-- An attempt outcome that can never yield a valid object. -/
def attemptFails (o : Outcome) : Prop :=
  ∀ po : ParsedObj, o = .ok200 (some po) → po.isEmptyObj = true ∨ po.enhanced = none

/-- Parsed JSON request body; `none` fields model absent keys (and, through
Python `or`, falsy values). -/
structure Body where
  input : Option String := none
  mode : Option String := none
  tone : Option String := none
  tier : Option String := none
deriving DecidableEq

/-- A response from `POST /enhance`: a 200 JSON payload or an error JSON with
its status code. -/
inductive Resp where
  | success (r : EnhanceResult)
  | failure (code : Nat) (msg : String)
deriving DecidableEq

/-- HTTP status of a response. -/
def Resp.status : Resp → Nat
  | .success _ => 200
  | .failure c _ => c

/-- Server state touched by one `/enhance` request: the requesting client's
rate bucket plus the global counters. -/
structure SrvState where
  bucket : List ℚ
  free_calls : Nat := 0
  pro_calls : Nat := 0
  fallback_uses : Nat := 0
  blocked_rate : Nat := 0
deriving DecidableEq

/-- Attach the fallback `note` field. -/
def withNote (r : EnhanceResult) (n : String) : EnhanceResult := { r with note := some n }

/-- The `POST /enhance` handler (main.py lines 265-302) for one request at
time `now`: the rate limiter runs first (with its counter side effects),
then body parsing (`rawBody = none` means an unparseable body), then input
validation, then the tier branch.  The external call is abstracted by
`callPro`, the value `openrouter_enhance` would produce for this request. -/
def enhance_route (maxReq : Nat) (window now : ℚ) (rawBody : Option Body)
    (callPro : Except String EnhanceResult) (st : SrvState) : Resp × SrvState :=
  let rl := checkRate maxReq window now st.bucket
  if rl.1 then
    (.failure 429 "Too many requests, slow down.",
     { st with bucket := rl.2, blocked_rate := st.blocked_rate + 1 })
  else
    let st1 : SrvState := { st with bucket := rl.2 }
    match rawBody with
    | none => (.failure 400 "Invalid JSON body.", st1)
    | some body =>
      let user_input := pyStrip (body.input.getD "")
      let mode := pyLower (pyStrip (body.mode.getD "analytical"))
      let tone := pyLower (pyStrip (body.tone.getD "concise"))
      let tier := pyLower (pyStrip (body.tier.getD "free"))
      if user_input = "" then (.failure 400 "input is required", st1)
      else if tier = "free" then
        (.success (deterministic_enhance user_input mode tone),
         { st1 with free_calls := st1.free_calls + 1 })
      else if tier = "pro" then
        match callPro with
        | .ok obj => (.success obj, { st1 with pro_calls := st1.pro_calls + 1 })
        | .error e =>
          (.success (withNote (deterministic_enhance user_input mode tone)
              ("Provider unavailable: " ++ pyTake e 120)),
           { st1 with pro_calls := st1.pro_calls + 1, fallback_uses := st1.fallback_uses + 1 })
      else (.failure 400 "unknown tier", st1)

/-- Modelled from the spec: the Mode Classifier component (spec section 4.1)
is not present in the source files under src; per the spec it holds a fixed
health-domain keyword set, checked first, with "diet" as its named example
and the section 8 scenario naming "stomach". -/
def HEALTH_KEYWORDS : List String :=
  ["diet", "nutrition", "stomach", "calorie", "symptom", "doctor", "medicine", "health"]

/-- Modelled from the spec: the technical-domain keyword set of the Mode
Classifier (spec section 4.1), checked second; "deploy" is the spec's named
example. -/
def TECH_KEYWORDS : List String :=
  ["deploy", "code", "api", "server", "software", "database", "bug"]

/-- Modelled from the spec: `infer_mode(text)` of the Mode Classifier (spec
section 4.1): lower-case the input, health keywords dominate, then technical
keywords, defaulting to "analytical". -/
def infer_mode (text : String) : String :=
  let t := pyLower text
  if HEALTH_KEYWORDS.any (fun k => strContains t k) then "health"
  else if TECH_KEYWORDS.any (fun k => strContains t k) then "technical"
  else "analytical"

/-- Modelled from the spec: the mode resolution of the final design (spec
sections 4.2 and 9), absent from the sources: a missing field defaults to
"auto"; after normalization an explicit valid mode is kept and anything else
is replaced by the Mode Classifier's inference on the raw input. -/
def resolve_mode (mode : Option String) (raw : String) : String :=
  let m := pyLower (pyStrip (mode.getD "auto"))
  if m = "analytical" ∨ m = "technical" ∨ m = "creative" ∨ m = "health" then m
  else infer_mode raw

/-- Modelled from the spec: the health role template of the final design's
Deterministic Enhancer (spec sections 4.2 and 8: the clinician/nutritionist
role line), absent from the sources under src. -/
def health_role : String :=
  "You are a clinician/nutritionist. Provide evidence-aware, safety-conscious guidance with clear caveats."

/-- Modelled from the spec: the four-template role table of the final design
(spec section 4.2), extending the source's three-entry table with the health
entry; unknown keys still fall back to "analytical". -/
def mode_hint_full (mode : String) : String :=
  if mode = "health" then health_role else mode_hint mode

/-- The deterministic enhancer applied to an already-resolved mode, using the
final design's role table. -/
def det_core (raw0 m tone : String) : EnhanceResult :=
  let raw := pyStrip raw0
  { enhanced := mkEnhanced (mode_hint_full m) raw tone (tone_hint tone) (ents raw)
    improvements :=
      [ "Mode preset applied: " ++ m
      , "Tone guidance applied: " ++ tone
      , "Added structure: Role, Task, Intent, Constraints, Tone, Output, Checks"
      , "Added anti-hallucination guidance & clarifying-question allowance"
      , "Included naive entity/context hints" ]
    model_used := "deterministic-fallback" }

/-- Modelled from the spec: the final design's Deterministic Enhancer (spec
section 4.2) resolves the mode through the Mode Classifier before selecting
the role template. -/
def deterministic_enhance_final (raw : String) (mode : Option String) (tone : String) :
    EnhanceResult :=
  det_core raw (resolve_mode mode raw) tone

/-- The mode hint table of `openrouter_enhance` (main.py lines 167-171) with
its default. -/
def or_mode_hint (mode : String) : String :=
  if mode = "analytical" then "Focus on analysis structure, assumptions, risks, decision criteria."
  else if mode = "technical" then "Focus on steps, examples, edge cases, and code-ready outputs."
  else if mode = "creative" then "Focus on voice, hooks, story structure, and audience fit."
  else "Focus on clarity and structure."

/-- The tone hint table of `openrouter_enhance` (main.py lines 172-178) with
its default. -/
def or_tone_hint (tone : String) : String :=
  if tone = "concise" then "Short, direct sentences. Remove filler."
  else if tone = "formal" then "Professional, precise language."
  else if tone = "friendly" then "Warm and approachable, but clear."
  else if tone = "persuasive" then "Benefit-first framing; conclude with a CTA."
  else if tone = "neutral" then "Informative and balanced."
  else "Keep it neutral and clear."

/-- The user message of `openrouter_enhance` (main.py line 180) built from an
already-resolved mode. -/
def or_user_core (raw m tone : String) : String :=
  "Mode: " ++ m ++ " (" ++ or_mode_hint m ++ ")\nTone: " ++ tone ++ " (" ++ or_tone_hint tone ++ ")\n\nUser Input:\n\"\"\"" ++ pyStrip raw ++ "\"\"\""

/-- Modelled from the spec: in the final design the External Model Caller
resolves the mode exactly as the Deterministic Enhancer does (spec section
4.4 step 1) before building its hint phrases. -/
def or_user_prompt_final (raw : String) (mode : Option String) (tone : String) : String :=
  or_user_core raw (resolve_mode mode raw) tone

/-- The Context Hints entity pipeline as the specification words it (spec
section 4.2): the alphanumeric-and-hyphen tokens of length at least 3,
deduplicated, sorted lexicographically, joined with ", ", truncated to 300
characters, with an empty result rendered as "N/A". -/
def entities_spec (raw : String) : String :=
  let tokens := ((tokensOf raw).map (fun t => String.mk t)).filter (fun t => 3 ≤ t.length)
  let uniq := tokens.dedup
  let sortedTokens := List.insertionSort (fun a b => a ≤ b) uniq
  let joined := pyJoin ", " sortedTokens
  let truncated := pyTake joined 300
  if truncated = "" then "N/A" else truncated

/-- Validity of a supplied mode value after normalization, per the spec's
mode enumeration. -/
def validModeStr (m : String) : Prop :=
  pyLower (pyStrip m) = "analytical" ∨ pyLower (pyStrip m) = "technical" ∨
    pyLower (pyStrip m) = "creative" ∨ pyLower (pyStrip m) = "health"

instance (m : String) : Decidable (validModeStr m) := by
  unfold validModeStr; infer_instance

/-- A string with a non-empty left part is non-empty. -/
theorem str_append_ne_empty {s : String} (t : String) (h : 0 < s.length) : s ++ t ≠ "" := by
  intro he
  have h2 := congrArg String.length he
  rw [String.length_append, String.length_empty] at h2
  omega

/-- The enhanced document template always yields a non-empty string. -/
theorem mkEnhanced_ne_empty (mh raw tone th e : String) : mkEnhanced mh raw tone th e ≠ "" :=
  str_append_ne_empty _ (by decide)

/-- Purging keeps a bucket whose entries are all within the window. -/
theorem checkRate_purge_eq (window now : ℚ) (b : List ℚ)
    (h : ∀ x ∈ b, now - x < window) :
    b.filter (fun t => now - t < window) = b :=
  List.filter_eq_self.mpr (fun a ha => decide_eq_true (h a ha))

/-- Behaviour of iterated rate checks when every involved timestamp is within
the window of every later one: the decision of step `i` depends only on the
number of previously admitted entries. -/
theorem runRate_fresh (maxReq : Nat) (ts : List ℚ) (b : List ℚ)
    (hb : ∀ t ∈ ts, ∀ x ∈ b, t - x < 60)
    (hts : ∀ t ∈ ts, ∀ x ∈ ts, t - x < 60) :
    runRate maxReq 60 ts b =
      (List.range ts.length).map (fun i => decide (maxReq ≤ b.length + i)) := by
  induction ts generalizing b with
  | nil => simp [runRate]
  | cons t ts ih =>
    have hpurge : b.filter (fun x => t - x < 60) = b :=
      checkRate_purge_eq 60 t b (fun x hx => hb t (List.mem_cons_self t ts) x hx)
    have hbtail : ∀ u ∈ ts, ∀ x ∈ b, u - x < 60 :=
      fun u hu x hx => hb u (List.mem_cons_of_mem t hu) x hx
    have htstail : ∀ u ∈ ts, ∀ x ∈ ts, u - x < 60 :=
      fun u hu x hx => hts u (List.mem_cons_of_mem t hu) x (List.mem_cons_of_mem t hx)
    rw [List.length_cons, List.range_succ_eq_map, List.map_cons, List.map_map]
    by_cases hc : maxReq ≤ b.length
    · have hhead : (decide (maxReq ≤ b.length + 0)) = true := by
        rw [Nat.add_zero]; exact decide_eq_true hc
      rw [runRate]
      simp only [checkRate, hpurge, if_pos hc]
      rw [hhead, ih b hbtail htstail]
      refine congrArg (List.cons true) (List.map_congr_left ?_)
      intro i _
      have h1 : maxReq ≤ b.length + i := Nat.le_trans hc (Nat.le_add_right _ _)
      have h2 : maxReq ≤ b.length + (i + 1) := Nat.le_trans hc (Nat.le_add_right _ _)
      simp [h1, h2, Function.comp]
    · have hhead : (decide (maxReq ≤ b.length + 0)) = false := by
        rw [Nat.add_zero]; exact decide_eq_false hc
      have hb2 : ∀ u ∈ ts, ∀ x ∈ b ++ [t], u - x < 60 := by
        intro u hu x hx
        rcases List.mem_append.mp hx with hx | hx
        · exact hbtail u hu x hx
        · rw [List.mem_singleton.mp hx]
          exact hts u (List.mem_cons_of_mem t hu) t (List.mem_cons_self t ts)
      rw [runRate]
      simp only [checkRate, hpurge, if_neg hc]
      rw [hhead, ih (b ++ [t]) hb2 htstail]
      refine congrArg (List.cons false) ?_
      refine List.map_congr_left ?_
      intro i _
      refine decide_eq_decide.mpr ?_
      simp [List.length_append]
      omega

/-- When no attempt of a candidate can yield a valid object, the retry loop
exhausts its budget and reports the last error. -/
theorem runCandidate_fails (respond : Nat → Outcome) (attempts : List Nat)
    (h : ∀ i ∈ attempts, attemptFails (respond i)) :
    ∀ lastErr, ∃ e, runCandidate respond lastErr attempts = .error e := by
  induction attempts with
  | nil => intro lastErr; exact ⟨lastErr, rfl⟩
  | cons a rest ih =>
    intro lastErr
    have htail : ∀ i ∈ rest, attemptFails (respond i) :=
      fun i hi => h i (List.mem_cons_of_mem a hi)
    cases hr : respond a with
    | ok200 obj =>
      cases obj with
      | none => rw [runCandidate, hr]; exact ih htail _
      | some po =>
        have hbad := h a (List.mem_cons_self a rest) po hr
        have hcond : (po.isEmptyObj || po.enhanced.isNone) = true := by
          rcases hbad with hb | hb
          · simp [hb]
          · simp [hb]
        rw [runCandidate, hr]
        simp only [hcond, if_true]
        exact ih htail _
    | status code text => rw [runCandidate, hr]; exact ih htail _
    | exn msg => rw [runCandidate, hr]; exact ih htail _

/-- When every attempt of every candidate fails, the rotation exhausts the
whole candidate list and reports the last error. -/
theorem rotateModels_fails (respond : String → Nat → Outcome) (models : List String)
    (h : ∀ m ∈ models, ∀ i ∈ ATTEMPTS, attemptFails (respond m i)) :
    ∀ lastErr, ∃ e, rotateModels respond lastErr models = .error e := by
  induction models with
  | nil => intro lastErr; exact ⟨lastErr, rfl⟩
  | cons m ms ih =>
    intro lastErr
    obtain ⟨e1, he1⟩ :=
      runCandidate_fails (respond m) ATTEMPTS (h m (List.mem_cons_self m ms)) lastErr
    rw [rotateModels, he1]
    exact ih (fun m2 hm2 => h m2 (List.mem_cons_of_mem m hm2)) e1

/-- When every attempt of every candidate fails, `openrouter_enhance` raises
the exhaustion error. -/
theorem openrouter_exhaustion (models : List String) (respond : String → Nat → Outcome)
    (h : ∀ m ∈ models, ∀ i ∈ ATTEMPTS, attemptFails (respond m i)) :
    ∃ msg, openrouter_enhance true models respond = .error msg := by
  obtain ⟨e, he⟩ := rotateModels_fails respond models h none
  refine ⟨"All model attempts failed. Last error: " ++ e.getD "None", ?_⟩
  rw [openrouter_enhance, if_pos rfl, he]

/-- Claim C7: on each check the rate limiter first discards bucket entries
older than WINDOW seconds and returns limited exactly when the remaining
count has reached MAX; consequently, with MAX=10 and WINDOW=60, eleven
requests from the same client within one second produce ten admissions
followed by exactly one rejection, the 11th. -/
theorem rate_limiter_window_and_threshold :
    (∀ (maxReq : Nat) (window now : ℚ) (bucket : List ℚ),
        (checkRate maxReq window now bucket).1 = true ↔
          maxReq ≤ (bucket.filter (fun t => now - t < window)).length) ∧
    (∀ ts : List ℚ, ts.length = 11 → (∀ a ∈ ts, ∀ b ∈ ts, a - b < 1) →
        runRate 10 60 ts [] = List.replicate 10 false ++ [true]) := by
  constructor
  · intro maxReq window now bucket
    by_cases hc : maxReq ≤ (bucket.filter (fun t => now - t < window)).length
    · simp [checkRate, hc]
    · simp [checkRate, hc]
  · intro ts hlen hpair
    have h60 : ∀ a ∈ ts, ∀ b ∈ ts, a - b < 60 :=
      fun a ha b hb => lt_trans (hpair a ha b hb) (by norm_num)
    rw [runRate_fresh 10 ts [] (by intro t _ x hx; exact absurd hx (List.not_mem_nil x)) h60,
      hlen]
    decide

/-- Witness for C7 at a concrete burst: eleven identical timestamps, empty
initial bucket. -/
theorem rate_limiter_window_and_threshold_witness :
    ((checkRate 10 60 0 []).1 = true ↔
      10 ≤ (([] : List ℚ).filter (fun t => (0 : ℚ) - t < 60)).length) ∧
    runRate 10 60 (List.replicate 11 (0 : ℚ)) [] = List.replicate 10 false ++ [true] :=
  ⟨rate_limiter_window_and_threshold.1 10 60 0 [],
   rate_limiter_window_and_threshold.2 (List.replicate 11 (0 : ℚ)) (by simp)
     (by
       intro a ha b hb
       rw [List.eq_of_mem_replicate ha, List.eq_of_mem_replicate hb]
       norm_num)⟩

/-- Claim C8: when the rate limiter rejects a request it stores only the
purged bucket, without appending the rejected request's own timestamp. -/
theorem rejected_request_not_recorded (maxReq : Nat) (window now : ℚ) (bucket : List ℚ)
    (h : (checkRate maxReq window now bucket).1 = true) :
    (checkRate maxReq window now bucket).2 =
      bucket.filter (fun t => now - t < window) := by
  by_cases hc : maxReq ≤ (bucket.filter (fun t => now - t < window)).length
  · simp [checkRate, hc]
  · simp [checkRate, hc] at h

/-- Witness for C8: a full bucket at the limit, whose rejection leaves the
bucket unchanged rather than growing it. -/
theorem rejected_request_not_recorded_witness :
    (checkRate 0 60 0 []).2 = ([] : List ℚ).filter (fun t => (0 : ℚ) - t < 60) :=
  rejected_request_not_recorded 0 60 0 [] (by decide)

/-- Counterexample for claim C6.  The claim says a 200 response with
malformed content makes the caller advance to the next candidate without
retrying the same candidate, and that an object lacking an "enhanced" key
with a NON-EMPTY value counts as malformed.  With the single candidate "m1"
whose first attempt returns unparseable content, the claim predicts the
candidate is abandoned and, the list being exhausted, the call fails; the
code instead retries "m1" and returns its second attempt's object.  And a
200 whose object carries "enhanced" bound to the empty string is accepted
and returned, not treated as malformed. -/
theorem same_candidate_retried_cex :
    openrouter_enhance true ["m1"]
        (fun _ a => if a = 0 then Outcome.ok200 none
                    else Outcome.ok200 (some ⟨false, some "ok", []⟩)) =
      .ok ⟨"ok", [], "m1", none⟩ ∧
    openrouter_enhance true ["m1"]
        (fun _ _ => Outcome.ok200 (some ⟨false, some "", []⟩)) =
      .ok ⟨"", [], "m1", none⟩ :=
  ⟨rfl, rfl⟩

/-- Claim C6 as amended: a 200 response whose content fails both parses, or
whose parsed object is falsy or lacks the "enhanced" key, causes the caller
to RETRY THE SAME candidate with the remaining attempt budget (recording the
malformed-response error); the candidate is abandoned only when its whole
budget is exhausted; and a 200 whose object merely has an "enhanced" key
(even bound to an empty string) is accepted immediately. -/
theorem malformed_response_retry_behaviour (respond : Nat → Outcome)
    (lastErr : Option String) (a : Nat) (rest : List Nat) :
    (respond a = .ok200 none →
      runCandidate respond lastErr (a :: rest) =
        runCandidate respond (some "Non-JSON or invalid JSON from model") rest) ∧
    (∀ po : ParsedObj, respond a = .ok200 (some po) →
      (po.isEmptyObj = true ∨ po.enhanced = none) →
      runCandidate respond lastErr (a :: rest) =
        runCandidate respond (some "Non-JSON or invalid JSON from model") rest) ∧
    (∀ po : ParsedObj, respond a = .ok200 (some po) →
      po.isEmptyObj = false → po.enhanced.isSome = true →
      runCandidate respond lastErr (a :: rest) = .ok po) ∧
    ((∀ i ∈ a :: rest, attemptFails (respond i)) →
      ∃ e, runCandidate respond lastErr (a :: rest) = .error e) ∧
    (∀ (respond2 : String → Nat → Outcome) (m : String) (ms : List String),
      (∀ i ∈ ATTEMPTS, attemptFails (respond2 m i)) →
      ∃ e, rotateModels respond2 lastErr (m :: ms) = rotateModels respond2 e ms) := by
  refine ⟨?_, ?_, ?_, ?_, ?_⟩
  · intro hr; rw [runCandidate, hr]
  · intro po hr hbad
    have hcond : (po.isEmptyObj || po.enhanced.isNone) = true := by
      rcases hbad with hb | hb
      · simp [hb]
      · simp [hb]
    rw [runCandidate, hr]
    simp only [hcond, if_true]
  · intro po hr h1 h2
    have hcond : (po.isEmptyObj || po.enhanced.isNone) = false := by
      rw [h1]
      simp only [Bool.false_or, Option.isNone_eq_false_iff, ← Option.isSome_iff_exists]
      exact h2
    rw [runCandidate, hr]
    simp only [hcond, Bool.false_eq_true, if_false]
  · intro hall; exact runCandidate_fails respond (a :: rest) hall lastErr
  · intro respond2 m ms hall
    obtain ⟨e, he⟩ := runCandidate_fails (respond2 m) ATTEMPTS hall lastErr
    exact ⟨e, by rw [rotateModels, he]⟩

/-- Witness for the amended C6 at a concrete oracle whose every attempt
returns unparseable content. -/
theorem malformed_response_retry_behaviour_witness :
    runCandidate (fun _ => Outcome.ok200 none) none [0, 1, 2, 3] =
      runCandidate (fun _ => Outcome.ok200 none)
        (some "Non-JSON or invalid JSON from model") [1, 2, 3] ∧
    (∃ e, runCandidate (fun _ => Outcome.ok200 none) none [0, 1, 2, 3] = .error e) ∧
    (∃ e, rotateModels (fun _ _ => Outcome.ok200 none) none ["m1", "m2"] =
      rotateModels (fun _ _ => Outcome.ok200 none) e ["m2"]) :=
  ⟨(malformed_response_retry_behaviour (fun _ => Outcome.ok200 none) none 0 [1, 2, 3]).1 rfl,
   (malformed_response_retry_behaviour (fun _ => Outcome.ok200 none) none 0 [1, 2, 3]).2.2.2.1
     (fun i _ po h => by cases h),
   (malformed_response_retry_behaviour (fun _ => Outcome.ok200 none) none 0 [1, 2, 3]).2.2.2.2
     (fun _ _ => Outcome.ok200 none) "m1" ["m2"]
     (fun i _ po h => by cases h)⟩

/-- Counterexample for claim C5.  The claim says an unparseable body receives
400 before the Rate Limiter is consulted and that only validated requests can
receive 429.  At a state whose bucket already holds RATE_LIMIT_MAX fresh
timestamps, a request with an unparseable body receives 429, not 400: the
handler consults the rate limiter before it ever parses the body. -/
theorem validation_after_rate_check_cex :
    (enhance_route 30 60 0 none (.error "boom")
        ⟨List.replicate 30 0, 0, 0, 0, 0⟩).1 =
      .failure 429 "Too many requests, slow down." := by
  have hfilter : (List.replicate 30 (0 : ℚ)).filter (fun t => (0 : ℚ) - t < 60) =
      List.replicate 30 0 := by
    refine List.filter_eq_self.mpr ?_
    intro a ha
    rw [List.eq_of_mem_replicate ha]
    norm_num
  simp [enhance_route, checkRate, hfilter]

/-- Claim C5 as amended: each request passes through the rate-limit check
BEFORE validation: a rate-limited request receives 429 whatever its body
(even an unparseable one), and only requests that pass the rate check are
validated and can receive the two 400 responses. -/
theorem rate_check_precedes_validation
    (maxA maxB : Nat) (window now : ℚ) (rawBody : Option Body) (b : Body)
    (callPro : Except String EnhanceResult) (stA stB : SrvState)
    (hlim : (checkRate maxA window now stA.bucket).1 = true)
    (hok : (checkRate maxB window now stB.bucket).1 = false) :
    ((enhance_route maxA window now rawBody callPro stA).1 =
      .failure 429 "Too many requests, slow down.") ∧
    ((enhance_route maxB window now none callPro stB).1 =
      .failure 400 "Invalid JSON body.") ∧
    (pyStrip (b.input.getD "") = "" →
      (enhance_route maxB window now (some b) callPro stB).1 =
        .failure 400 "input is required") := by
  refine ⟨?_, ?_, ?_⟩
  · simp [enhance_route, hlim]
  · simp [enhance_route, hok]
  · intro hempty
    simp [enhance_route, hok, hempty]

/-- Witness for the amended C5 at concrete states: a saturated limiter
(MAX=0) yields 429 for an unparseable body, while an unsaturated one
(MAX=30, empty bucket) lets the 400 validations fire. -/
theorem rate_check_precedes_validation_witness :
    ((enhance_route 0 60 0 none (.error "x") ⟨[], 0, 0, 0, 0⟩).1 =
      .failure 429 "Too many requests, slow down.") ∧
    ((enhance_route 30 60 0 none (.error "x") ⟨[], 0, 0, 0, 0⟩).1 =
      .failure 400 "Invalid JSON body.") ∧
    ((enhance_route 30 60 0 (some ⟨some "   ", none, none, none⟩) (.error "x")
        ⟨[], 0, 0, 0, 0⟩).1 = .failure 400 "input is required") := by
  have h := rate_check_precedes_validation 0 30 60 0 none
    ⟨some "   ", none, none, none⟩ (.error "x") ⟨[], 0, 0, 0, 0⟩ ⟨[], 0, 0, 0, 0⟩
    (by decide) (by decide)
  exact ⟨h.1, h.2.1, h.2.2 (by decide)⟩

/-- Claim C1: a non-rate-limited request with non-empty (after trim) input
and tier "free" receives status 200 carrying exactly the deterministic
enhancer's result, whose `enhanced` field is a non-empty string. -/
theorem free_tier_returns_deterministic (maxReq : Nat) (window now : ℚ) (b : Body)
    (callPro : Except String EnhanceResult) (st : SrvState)
    (hrl : (checkRate maxReq window now st.bucket).1 = false)
    (hin : pyStrip (b.input.getD "") ≠ "")
    (htier : pyLower (pyStrip (b.tier.getD "free")) = "free") :
    (enhance_route maxReq window now (some b) callPro st).1 =
      .success (deterministic_enhance (pyStrip (b.input.getD ""))
        (pyLower (pyStrip (b.mode.getD "analytical")))
        (pyLower (pyStrip (b.tone.getD "concise")))) ∧
    (enhance_route maxReq window now (some b) callPro st).1.status = 200 ∧
    (deterministic_enhance (pyStrip (b.input.getD ""))
        (pyLower (pyStrip (b.mode.getD "analytical")))
        (pyLower (pyStrip (b.tone.getD "concise")))).enhanced ≠ "" := by
  have h1 : (enhance_route maxReq window now (some b) callPro st).1 =
      .success (deterministic_enhance (pyStrip (b.input.getD ""))
        (pyLower (pyStrip (b.mode.getD "analytical")))
        (pyLower (pyStrip (b.tone.getD "concise")))) := by
    simp [enhance_route, hrl, hin, htier]
  refine ⟨h1, by rw [h1]; rfl, ?_⟩
  simp only [deterministic_enhance]
  exact mkEnhanced_ne_empty _ _ _ _ _

/-- Witness for C1 at a concrete request. -/
theorem free_tier_returns_deterministic_witness :
    (enhance_route 30 60 0 (some ⟨some "hello", none, none, none⟩) (.error "x")
        ⟨[], 0, 0, 0, 0⟩).1 =
      .success (deterministic_enhance (pyStrip ((some "hello" : Option String).getD ""))
        (pyLower (pyStrip ((none : Option String).getD "analytical")))
        (pyLower (pyStrip ((none : Option String).getD "concise")))) ∧
    (enhance_route 30 60 0 (some ⟨some "hello", none, none, none⟩) (.error "x")
        ⟨[], 0, 0, 0, 0⟩).1.status = 200 ∧
    (deterministic_enhance (pyStrip ((some "hello" : Option String).getD ""))
        (pyLower (pyStrip ((none : Option String).getD "analytical")))
        (pyLower (pyStrip ((none : Option String).getD "concise")))).enhanced ≠ "" :=
  free_tier_returns_deterministic 30 60 0 ⟨some "hello", none, none, none⟩ (.error "x")
    ⟨[], 0, 0, 0, 0⟩ (by decide) (by decide) (by decide)

/-- Claim C2: a non-rate-limited request with non-empty input and tier "pro"
whose external call fails (with any message, covering the no-credential
ConfigError and the all-candidates-exhausted ProviderError, both shown below
to be `.error` results of `openrouter_enhance`) still receives status 200
with a non-empty `enhanced`, a non-empty `note`, and a `fallback_uses`
counter incremented by one: the provider failure never surfaces as a non-200
status. -/
theorem pro_tier_fallback (maxReq : Nat) (window now : ℚ) (b : Body) (e : String)
    (st : SrvState) (models : List String) (respond : String → Nat → Outcome)
    (hrl : (checkRate maxReq window now st.bucket).1 = false)
    (hin : pyStrip (b.input.getD "") ≠ "")
    (htier : pyLower (pyStrip (b.tier.getD "free")) = "pro") :
    (enhance_route maxReq window now (some b) (.error e) st).1 =
      .success (withNote (deterministic_enhance (pyStrip (b.input.getD ""))
          (pyLower (pyStrip (b.mode.getD "analytical")))
          (pyLower (pyStrip (b.tone.getD "concise"))))
        ("Provider unavailable: " ++ pyTake e 120)) ∧
    (enhance_route maxReq window now (some b) (.error e) st).1.status = 200 ∧
    (withNote (deterministic_enhance (pyStrip (b.input.getD ""))
          (pyLower (pyStrip (b.mode.getD "analytical")))
          (pyLower (pyStrip (b.tone.getD "concise"))))
        ("Provider unavailable: " ++ pyTake e 120)).enhanced ≠ "" ∧
    (withNote (deterministic_enhance (pyStrip (b.input.getD ""))
          (pyLower (pyStrip (b.mode.getD "analytical")))
          (pyLower (pyStrip (b.tone.getD "concise"))))
        ("Provider unavailable: " ++ pyTake e 120)).note =
      some ("Provider unavailable: " ++ pyTake e 120) ∧
    ("Provider unavailable: " ++ pyTake e 120) ≠ "" ∧
    (enhance_route maxReq window now (some b) (.error e) st).2.fallback_uses =
      st.fallback_uses + 1 ∧
    openrouter_enhance false models respond = .error "OPENROUTER_API_KEY not configured" ∧
    ((∀ m ∈ models, ∀ i ∈ ATTEMPTS, attemptFails (respond m i)) →
      ∃ msg, openrouter_enhance true models respond = .error msg) := by
  have hroute : enhance_route maxReq window now (some b) (.error e) st =
      (.success (withNote (deterministic_enhance (pyStrip (b.input.getD ""))
          (pyLower (pyStrip (b.mode.getD "analytical")))
          (pyLower (pyStrip (b.tone.getD "concise"))))
        ("Provider unavailable: " ++ pyTake e 120)),
       { st with bucket := (checkRate maxReq window now st.bucket).2,
                 pro_calls := st.pro_calls + 1,
                 fallback_uses := st.fallback_uses + 1 }) := by
    simp [enhance_route, hrl, hin, htier]
  refine ⟨?_, ?_, ?_, rfl, str_append_ne_empty _ (by decide), ?_, rfl, openrouter_exhaustion models respond⟩
  · rw [hroute]
  · rw [hroute]; rfl
  · simp only [withNote, deterministic_enhance]
    exact mkEnhanced_ne_empty _ _ _ _ _
  · rw [hroute]

/-- Witness for C2 at a concrete request whose external call failed. -/
theorem pro_tier_fallback_witness :
    (enhance_route 30 60 0 (some ⟨some "hello", none, none, some "pro"⟩) (.error "boom")
        ⟨[], 0, 0, 0, 0⟩).1 =
      .success (withNote (deterministic_enhance (pyStrip ((some "hello" : Option String).getD ""))
          (pyLower (pyStrip ((none : Option String).getD "analytical")))
          (pyLower (pyStrip ((none : Option String).getD "concise"))))
        ("Provider unavailable: " ++ pyTake "boom" 120)) ∧
    (enhance_route 30 60 0 (some ⟨some "hello", none, none, some "pro"⟩) (.error "boom")
        ⟨[], 0, 0, 0, 0⟩).1.status = 200 ∧
    (withNote (deterministic_enhance (pyStrip ((some "hello" : Option String).getD ""))
          (pyLower (pyStrip ((none : Option String).getD "analytical")))
          (pyLower (pyStrip ((none : Option String).getD "concise"))))
        ("Provider unavailable: " ++ pyTake "boom" 120)).enhanced ≠ "" ∧
    (withNote (deterministic_enhance (pyStrip ((some "hello" : Option String).getD ""))
          (pyLower (pyStrip ((none : Option String).getD "analytical")))
          (pyLower (pyStrip ((none : Option String).getD "concise"))))
        ("Provider unavailable: " ++ pyTake "boom" 120)).note =
      some ("Provider unavailable: " ++ pyTake "boom" 120) ∧
    ("Provider unavailable: " ++ pyTake "boom" 120) ≠ "" ∧
    (enhance_route 30 60 0 (some ⟨some "hello", none, none, some "pro"⟩) (.error "boom")
        ⟨[], 0, 0, 0, 0⟩).2.fallback_uses = 0 + 1 ∧
    openrouter_enhance false ["m1"] (fun _ _ => .status 503 "busy") =
      .error "OPENROUTER_API_KEY not configured" ∧
    (∃ msg, openrouter_enhance true ["m1"] (fun _ _ => .status 503 "busy") = .error msg) := by
  have h := pro_tier_fallback 30 60 0 ⟨some "hello", none, none, some "pro"⟩ "boom"
    ⟨[], 0, 0, 0, 0⟩ ["m1"] (fun _ _ => .status 503 "busy")
    (by decide) (by decide) (by decide)
  exact ⟨h.1, h.2.1, h.2.2.1, h.2.2.2.1, h.2.2.2.2.1, h.2.2.2.2.2.1, h.2.2.2.2.2.2.1,
    h.2.2.2.2.2.2.2 (fun m _ i _ po hpo => by cases hpo)⟩

/-- Claim C3 (settled against the spec-modelled Mode Classifier, which is
absent from the sources): every input containing any health-domain keyword
(for example "diet") and no explicit mode infers mode "health", and the
final design's deterministic output begins with the Role heading followed by
the health role sentence. -/
theorem health_keyword_infers_health_mode (raw tone : String)
    (h : ∃ k ∈ HEALTH_KEYWORDS, strContains (pyLower raw) k = true) :
    infer_mode raw = "health" ∧
    resolve_mode none raw = "health" ∧
    ∃ rest : String, (deterministic_enhance_final raw none tone).enhanced =
      "# Role\n" ++ (health_role ++ rest) := by
  have hinf : infer_mode raw = "health" := by
    have hany : HEALTH_KEYWORDS.any (fun k => strContains (pyLower raw) k) = true :=
      List.any_eq_true.mpr h
    simp [infer_mode, hany]
  have hres : resolve_mode none raw = "health" := by
    have hauto : pyLower (pyStrip ((none : Option String).getD "auto")) = "auto" := by decide
    simp only [resolve_mode, hauto]
    rw [if_neg (by decide)]
    exact hinf
  refine ⟨hinf, hres,
    ⟨enhancedTail (pyStrip raw) tone (tone_hint tone) (ents (pyStrip raw)), ?_⟩⟩
  simp only [deterministic_enhance_final, det_core, hres, mode_hint_full, mkEnhanced]
  simp

/-- Witness for C3 at a concrete input containing the health keyword
"stomach" (the scenario input of spec section 8). -/
theorem health_keyword_infers_health_mode_witness :
    infer_mode "My stomach hurts after eating coriander" = "health" ∧
    resolve_mode none "My stomach hurts after eating coriander" = "health" ∧
    ∃ rest : String,
      (deterministic_enhance_final "My stomach hurts after eating coriander"
          none "formal").enhanced =
        "# Role\n" ++ (health_role ++ rest) :=
  health_keyword_infers_health_mode "My stomach hurts after eating coriander" "formal"
    ⟨"stomach", by decide, by decide⟩

/-- Claim C4 (settled against the spec-modelled mode resolution of the final
design, absent from the sources): inference applies exactly when the
supplied mode is absent, "auto", or unrecognized; an explicit valid mode is
never replaced; an absent mode behaves as "auto"; and both the final
design's deterministic enhancer and its external-caller prompt builder go
through this same resolution. -/
theorem mode_resolution_contract (raw mval minv tone : String) :
    resolve_mode none raw = infer_mode raw ∧
    resolve_mode (some "auto") raw = infer_mode raw ∧
    resolve_mode none raw = resolve_mode (some "auto") raw ∧
    (validModeStr mval → resolve_mode (some mval) raw = pyLower (pyStrip mval)) ∧
    (¬ validModeStr minv → resolve_mode (some minv) raw = infer_mode raw) ∧
    (∀ mo : Option String,
      deterministic_enhance_final raw mo tone = det_core raw (resolve_mode mo raw) tone) ∧
    (∀ mo : Option String,
      or_user_prompt_final raw mo tone = or_user_core raw (resolve_mode mo raw) tone) := by
  have hauto : resolve_mode (some "auto") raw = infer_mode raw := by
    have h1 : pyLower (pyStrip ((some "auto" : Option String).getD "auto")) = "auto" := by
      decide
    simp only [resolve_mode, h1]
    rw [if_neg (by decide)]
  have hnone : resolve_mode none raw = infer_mode raw := by
    have h1 : pyLower (pyStrip ((none : Option String).getD "auto")) = "auto" := by decide
    simp only [resolve_mode, h1]
    rw [if_neg (by decide)]
  refine ⟨hnone, hauto, hnone.trans hauto.symm, ?_, ?_, fun _ => rfl, fun _ => rfl⟩
  · intro hv
    simp only [validModeStr] at hv
    simp only [resolve_mode, Option.getD_some]
    rw [if_pos hv]
  · intro hv
    simp only [validModeStr] at hv
    simp only [resolve_mode, Option.getD_some]
    rw [if_neg hv]

/-- Witness for C4: " Technical " is an explicit valid mode (kept after
normalization), " bogus " is unrecognized (replaced by inference). -/
theorem mode_resolution_contract_witness :
    resolve_mode none "analyse this" = infer_mode "analyse this" ∧
    resolve_mode (some "auto") "analyse this" = infer_mode "analyse this" ∧
    resolve_mode none "analyse this" = resolve_mode (some "auto") "analyse this" ∧
    resolve_mode (some " Technical ") "analyse this" = pyLower (pyStrip " Technical ") ∧
    resolve_mode (some " bogus ") "analyse this" = infer_mode "analyse this" ∧
    (∀ mo : Option String, deterministic_enhance_final "analyse this" mo "concise" =
      det_core "analyse this" (resolve_mode mo "analyse this") "concise") ∧
    (∀ mo : Option String, or_user_prompt_final "analyse this" mo "concise" =
      or_user_core "analyse this" (resolve_mode mo "analyse this") "concise") := by
  have h := mode_resolution_contract "analyse this" " Technical " " bogus " "concise"
  exact ⟨h.1, h.2.1, h.2.2.1, h.2.2.2.1 (by decide), h.2.2.2.2.1 (by decide),
    h.2.2.2.2.2.1, h.2.2.2.2.2.2⟩

/-- Wrapping a character list leaves its length unchanged. -/
theorem length_mk (l : List Char) : (String.mk l).length = l.length := rfl

/-- Filtering tokens by length commutes with wrapping them as strings. -/
theorem filter_map_mk (l : List (List Char)) :
    ((l.filter (fun t => 3 ≤ t.length)).map (fun t => String.mk t)) =
    ((l.map (fun t => String.mk t)).filter (fun t => 3 ≤ t.length)) := by
  induction l with
  | nil => rfl
  | cons a l ih =>
    by_cases h : 3 ≤ a.length
    · simp [List.filter_cons, h, length_mk, ih]
    · simp [List.filter_cons, h, length_mk, ih]

/-- Claim C9: the Context Hints entity list is the alphanumeric-and-hyphen
tokens of length at least 3, deduplicated, sorted lexicographically, joined
with ", ", truncated to 300 characters, rendered "N/A" when empty — the
source pipeline coincides with the spec-worded pipeline, the deterministic
enhancer embeds it, and the token list really is duplicate-free, sorted, and
made of tokens of length at least 3. -/
theorem context_hints_entity_pipeline (raw mode tone : String) :
    ents raw = entities_spec raw ∧
    (deterministic_enhance raw mode tone).enhanced =
      mkEnhanced (mode_hint mode) (pyStrip raw) tone (tone_hint tone) (ents (pyStrip raw)) ∧
    List.Sorted (fun a b : String => a ≤ b) (entityList raw) ∧
    (entityList raw).Nodup ∧
    (entityList raw).Pairwise (fun a b : String => a < b) ∧
    (∀ t ∈ entityList raw, 3 ≤ t.length) := by
  have hsorted : List.Sorted (fun a b : String => a ≤ b) (entityList raw) := by
    unfold entityList
    exact List.sorted_insertionSort _ _
  have hperm := List.perm_insertionSort (fun a b : String => a ≤ b)
    (((tokensOf raw).filter (fun t => 3 ≤ t.length)).map (fun t => String.mk t)).dedup
  have hnodup : (entityList raw).Nodup := by
    unfold entityList
    exact hperm.nodup_iff.mpr (List.nodup_dedup _)
  refine ⟨?_, rfl, hsorted, hnodup, ?_, ?_⟩
  · simp only [ents, entities_spec, entityList, filter_map_mk]
  · exact (List.Pairwise.and hsorted hnodup).imp (fun h => lt_of_le_of_ne h.1 h.2)
  · intro t ht
    have ht2 : t ∈ (((tokensOf raw).filter (fun t => 3 ≤ t.length)).map
        (fun t => String.mk t)).dedup := hperm.mem_iff.mp ht
    rw [List.mem_dedup] at ht2
    obtain ⟨tok, htok, rfl⟩ := List.mem_map.mp ht2
    exact of_decide_eq_true (List.mem_filter.mp htok).2

/-- Claim C10: the tier, mode and tone fields are trimmed and lowercased
before any comparison — a tier normalizing to "pro" selects the pro path
(its counter increments) and a tone normalizing to "formal" drives the
formal guidance text into the deterministic output. -/
theorem fields_normalized_before_comparison (maxReq : Nat) (window now : ℚ)
    (st : SrvState) (input modeS toneS tierS e : String)
    (hrl : (checkRate maxReq window now st.bucket).1 = false)
    (hin : pyStrip input ≠ "")
    (htier : pyLower (pyStrip tierS) = "pro")
    (htone : pyLower (pyStrip toneS) = "formal") :
    (enhance_route maxReq window now
        (some ⟨some input, some modeS, some toneS, some tierS⟩) (.error e) st).1 =
      .success (withNote (deterministic_enhance (pyStrip input)
          (pyLower (pyStrip modeS)) "formal")
        ("Provider unavailable: " ++ pyTake e 120)) ∧
    (enhance_route maxReq window now
        (some ⟨some input, some modeS, some toneS, some tierS⟩) (.error e) st).2.pro_calls =
      st.pro_calls + 1 ∧
    tone_hint "formal" = "Professional, precise, no slang." ∧
    (deterministic_enhance (pyStrip input) (pyLower (pyStrip modeS)) "formal").enhanced =
      mkEnhanced (mode_hint (pyLower (pyStrip modeS))) (pyStrip (pyStrip input)) "formal"
        (tone_hint "formal") (ents (pyStrip (pyStrip input))) := by
  refine ⟨?_, ?_, rfl, rfl⟩
  · simp [enhance_route, hrl, hin, htier, htone]
  · simp [enhance_route, hrl, hin, htier, htone]

/-- Witness for C10: tier " PRO " and tone "Formal" normalize to "pro" and
"formal". -/
theorem fields_normalized_before_comparison_witness :
    (enhance_route 30 60 0
        (some ⟨some "hi", some "x", some "Formal", some " PRO "⟩) (.error "err")
        ⟨[], 0, 0, 0, 0⟩).1 =
      .success (withNote (deterministic_enhance (pyStrip "hi")
          (pyLower (pyStrip "x")) "formal")
        ("Provider unavailable: " ++ pyTake "err" 120)) ∧
    (enhance_route 30 60 0
        (some ⟨some "hi", some "x", some "Formal", some " PRO "⟩) (.error "err")
        ⟨[], 0, 0, 0, 0⟩).2.pro_calls = 0 + 1 ∧
    tone_hint "formal" = "Professional, precise, no slang." ∧
    (deterministic_enhance (pyStrip "hi") (pyLower (pyStrip "x")) "formal").enhanced =
      mkEnhanced (mode_hint (pyLower (pyStrip "x"))) (pyStrip (pyStrip "hi")) "formal"
        (tone_hint "formal") (ents (pyStrip (pyStrip "hi"))) :=
  fields_normalized_before_comparison 30 60 0 ⟨[], 0, 0, 0, 0⟩ "hi" "x" "Formal" " PRO " "err"
    (by decide) (by decide) (by decide) (by decide)
